import Mathlib

/-!
Shallow embedding of the power-supply driver (`drv_power_supply.cpp` /
`drv_power_supply.h`) and the telemetry worker loop of
`GUI_MAIN_POWER_SUPPLY.cpp`.

Machine doubles are modelled as rationals: every numeric value exchanged in
the properties below (`0.0`, `1.0`, `2.5`, ...) is exactly representable in
binary floating point, so the rational model is exact on them.  The VISA
transport is modelled by an environment record stating whether each
`viWrite`/`viRead` call succeeds and which response line the device makes
available; each driver operation additionally returns the list of byte
strings it handed to `viWrite`, so "performs no transport write" is the
statement that this trace is empty.
-/

namespace PowerSupply

/-- `PowerSupply::PsError` from `drv_power_supply.h`. -/
inductive PsError where
  | ERR_SUCCESS
  | ERR_INVALID_VOLTAGE
  | ERR_INVALID_CURRENT
  | ERR_DEVICE_NOT_CONNECTED
  | ERR_OPERATION_FAILED
deriving DecidableEq, Repr

/-- The session-relevant fields of the `PowerSupply` object: the public
`port` string and `baudrate`, and the two `ViSession` handles, with
`VI_NULL = 0`. -/
structure PsState where
  port : String
  baudrate : Int
  defaultRM : Nat
  instrument : Nat
deriving DecidableEq, Repr

/-- One command/response exchange as seen from the driver: whether the
`viWrite` succeeds, whether the `viRead` succeeds, and the response line the
device makes available to `viRead`. -/
structure Env where
  writeOk : Bool
  readOk : Bool
  response : String
deriving DecidableEq, Repr

/-- `PowerSupply::isOpen`: `ERR_DEVICE_NOT_CONNECTED` iff
`instrument == VI_NULL`, else `ERR_SUCCESS`. -/
def isOpen (s : PsState) : PsError :=
  if s.instrument = 0 then PsError.ERR_DEVICE_NOT_CONNECTED else PsError.ERR_SUCCESS

/-- The `psCommands` map initialised in `drv_power_supply.h`.  The source
reads it through `std::map::operator[]`, which default-constructs an empty
string for a key that is not in the map; the final branch models that. -/
def psCommands (key : String) : String :=
  if key = "writeVoltage" then "VOLT"
  else if key = "setCurrent" then "CURR"
  else if key = "writeMaxCurrent" then "IMAX"
  else if key = "readVoltage" then "MEAS:VOLT?"
  else if key = "readCurrent" then "MEAS:CURR?"
  else if key = "getMaxCurrent" then "IMAX?"
  else if key = "isOn" then "OUTP?"
  else if key = "turnOn" then "OUTP ON"
  else if key = "turnOff" then "OUTP OFF"
  else ""

/-- Value of a list of ASCII digits read left to right. -/
def natOfDigits (l : List Char) : Nat :=
  l.foldl (fun a c => a * 10 + (c.toNat - 48)) 0

/-- Scanning phase of C `atof` on the decimal fragment the device responses
use (leading whitespace, optional sign, digits, optional fractional part; the
responses in play carry no exponent).  Returns (negative-sign seen,
integer-part value, fraction-digits value, number of fraction digits); an
unparsable input scans to `(false, 0, 0, 0)`, i.e. `0.0`, as `atof`
specifies. -/
def atofParts (l : List Char) : Bool × Nat × Nat × Nat :=
  let l2 := l.dropWhile (fun c => c = ' ' ∨ c = '\t' ∨ c = '\n' ∨ c = '\r')
  let nr : Bool × List Char :=
    match l2 with
    | '-' :: r => (true, r)
    | '+' :: r => (false, r)
    | _ => (false, l2)
  let ip := nr.2.takeWhile Char.isDigit
  let rest := nr.2.dropWhile Char.isDigit
  let fp : List Char :=
    match rest with
    | '.' :: r => r.takeWhile Char.isDigit
    | _ => []
  (nr.1, natOfDigits ip, natOfDigits fp, fp.length)

/-- Numeric value of the scanned parts. -/
def atofChars (l : List Char) : ℚ :=
  let p := atofParts l
  let v : ℚ := (p.2.1 : ℚ) + (p.2.2.1 : ℚ) / ((10 : ℚ) ^ p.2.2.2)
  if p.1 then -v else v

/-- C `atof` applied to a response string. -/
def atof (s : String) : ℚ := atofChars s.toList

/-- Fraction digits of `std::to_string(double)`, zero-padded to width 6. -/
def fmtFrac (n : Nat) : String :=
  let s := toString n
  String.mk (List.replicate (6 - s.length) '0') ++ s

/-- Models `std::to_string(double)`: fixed `%f` notation with six fraction
digits.  The scaled value is computed on the numerator/denominator so the
definition evaluates by kernel reduction; the division is exact rounding to
the nearest multiple of `10⁻⁶` (half away from zero), which agrees with
`%f` on every value the properties below use. -/
def cppToString (q : ℚ) : String :=
  let neg : Bool := decide (q < 0)
  let a : ℚ := if q < 0 then -q else q
  let scaled : Int := (a.num * 2000000 + (a.den : Int)) / (2 * (a.den : Int))
  let ip := scaled / 1000000
  let fp := scaled % 1000000
  (if neg then "-" else "") ++ toString ip ++ "." ++ fmtFrac fp.toNat

/-- `PowerSupply::sendCommand`.  The command line is formatted into the
30-byte `commandBuffer` by `snprintf`, which keeps at most 29 characters plus
the terminator; `viWrite` is then handed `strlen(commandBuffer)` bytes.  The
second component is the transport-write trace of the call: the byte string
handed to `viWrite` (recorded whether or not the write succeeds, since
`viWrite` was invoked either way). -/
def sendCommand (env : Env) (command value : String) : PsError × List String :=
  let line := if value = "" then command ++ "\n" else command ++ " " ++ value ++ "\n"
  let sent := String.mk (line.toList.take 29)
  if env.writeOk then (PsError.ERR_SUCCESS, [sent])
  else (PsError.ERR_OPERATION_FAILED, [sent])

/-- The NUL byte left in a zeroed response buffer. -/
def nulChar : Char := Char.ofNat 0

/-- `buffer[0]` after `memset(buffer, 0, ...)` and a `viRead` of the
response: the first character of the response line, or NUL when the response
is empty. -/
def firstRespChar (env : Env) : Char := env.response.toList.headD nulChar

/-- The response buffer contents: `viRead` stores at most `n` bytes
(`sizeof(buffer)`), so the driver sees at most the first `n` characters of
the response line. -/
def readBuffer (n : Nat) (resp : String) : String := String.mk (resp.toList.take n)

/-- `PowerSupply::isOn`.  `state` is set to `false` before any check or I/O;
it becomes `true` only on the `'1'` branch of the parse. -/
def isOn (s : PsState) (env : Env) : PsError × Bool × List String :=
  if isOpen s ≠ PsError.ERR_SUCCESS then
    (PsError.ERR_DEVICE_NOT_CONNECTED, false, [])
  else
    let sc := sendCommand env (psCommands "isOn") ""
    if sc.1 ≠ PsError.ERR_SUCCESS then (PsError.ERR_OPERATION_FAILED, false, sc.2)
    else if env.readOk = false then (PsError.ERR_OPERATION_FAILED, false, sc.2)
    else if firstRespChar env = '1' then (PsError.ERR_SUCCESS, true, sc.2)
    else if firstRespChar env = '0' then (PsError.ERR_SUCCESS, false, sc.2)
    else (PsError.ERR_OPERATION_FAILED, false, sc.2)

/-- `PowerSupply::setVoltage`.  The source looks the mnemonic up under the
key `"setVoltage"`, which is not in `psCommands` (the table's key for the
`VOLT` syntax is `"writeVoltage"`), and sends
`std::to_string(voltage)` as the parameter. -/
def setVoltage (s : PsState) (env : Env) (voltage : ℚ) : PsError × List String :=
  if isOpen s ≠ PsError.ERR_SUCCESS then (PsError.ERR_DEVICE_NOT_CONNECTED, [])
  else
    let sc := sendCommand env (psCommands "setVoltage") (cppToString voltage)
    if sc.1 ≠ PsError.ERR_SUCCESS then (PsError.ERR_OPERATION_FAILED, sc.2)
    else (PsError.ERR_SUCCESS, sc.2)

/-- `PowerSupply::getVoltage`.  The out-parameter is zeroed at entry; on a
successful exchange it receives `atof(buffer)` with the 25-byte response
buffer. -/
def getVoltage (s : PsState) (env : Env) : PsError × ℚ × List String :=
  if isOpen s ≠ PsError.ERR_SUCCESS then (PsError.ERR_DEVICE_NOT_CONNECTED, 0, [])
  else
    let sc := sendCommand env (psCommands "getVoltage") ""
    if sc.1 ≠ PsError.ERR_SUCCESS then (PsError.ERR_OPERATION_FAILED, 0, sc.2)
    else if env.readOk = false then (PsError.ERR_OPERATION_FAILED, 0, sc.2)
    else (PsError.ERR_SUCCESS, atof (readBuffer 25 env.response), sc.2)

/-- `PowerSupply::getCurrent`.  Unlike `getVoltage` the out-parameter is not
initialised before the open check, so the early `ERR_DEVICE_NOT_CONNECTED`
return leaves the caller's value in place.  Every other path reaches the
`ps_err_getCurrent` label, which executes `current = 0.0;` before the
return, so the `atof(buffer)` result computed on the success path is
overwritten with `0` there. -/
def getCurrent (s : PsState) (env : Env) (currentIn : ℚ) : PsError × ℚ × List String :=
  if isOpen s ≠ PsError.ERR_SUCCESS then
    (PsError.ERR_DEVICE_NOT_CONNECTED, currentIn, [])
  else
    let sc := sendCommand env (psCommands "getCurrent") ""
    let body : PsError × ℚ :=
      if sc.1 ≠ PsError.ERR_SUCCESS then (PsError.ERR_OPERATION_FAILED, currentIn)
      else if env.readOk = false then (PsError.ERR_OPERATION_FAILED, currentIn)
      else (PsError.ERR_SUCCESS, atof (readBuffer 25 env.response))
    (body.1, 0, sc.2)

/-- `PowerSupply::turnOn`.  The local `err` starts as `ERR_SUCCESS`; the
not-connected branch prints a message and jumps to the final return without
assigning `err`, so that branch returns `ERR_SUCCESS`. -/
def turnOn (s : PsState) (env : Env) : PsError × List String :=
  if isOpen s ≠ PsError.ERR_SUCCESS then (PsError.ERR_SUCCESS, [])
  else
    let sc := sendCommand env (psCommands "turnOn") ""
    if sc.1 ≠ PsError.ERR_SUCCESS then (PsError.ERR_OPERATION_FAILED, sc.2)
    else (PsError.ERR_SUCCESS, sc.2)

/-- `PowerSupply::turnOff`, with the same early-exit shape as `turnOn`. -/
def turnOff (s : PsState) (env : Env) : PsError × List String :=
  if isOpen s ≠ PsError.ERR_SUCCESS then (PsError.ERR_SUCCESS, [])
  else
    let sc := sendCommand env (psCommands "turnOff") ""
    if sc.1 ≠ PsError.ERR_SUCCESS then (PsError.ERR_OPERATION_FAILED, sc.2)
    else (PsError.ERR_SUCCESS, sc.2)

/-- `PowerSupply::close`: `viClose` both handles when held, set them to
`VI_NULL`, clear the port string.  `baudrate` is untouched. -/
def close (s : PsState) : PsState :=
  { s with instrument := 0, defaultRM := 0, port := "" }

/-- The VISA resource acquisitions `PowerSupply::open` may perform, in
order. -/
inductive ViAction where
  | openDefaultRM
  | openInstr (resourceName : String)
deriving DecidableEq, Repr

/-- Environment for a call to `PowerSupply::open`: whether
`viOpenDefaultRM` and `viOpen` succeed, and the handles a successful call
stores through its out-pointer. -/
structure OpenEnv where
  rmOk : Bool
  rmHandle : Nat
  openOk : Bool
  instrHandle : Nat
deriving DecidableEq, Repr

/-- The intended VISA resource name `"ASRL" + port.substr(3) + "::INSTR"`,
as a character list (`substr` is byte-based and the port identifiers are
ASCII). -/
def resourceNameFullChars (port : String) : List Char :=
  "ASRL".toList ++ port.toList.drop 3 ++ "::INSTR".toList

/-- The intended resource name as a string. -/
def resourceNameFull (port : String) : String :=
  String.mk (resourceNameFullChars port)

/-- The resource name handed to `viOpen`: `strncpy` into the zero-initialised
`char resourceName[14]` copies at most 14 bytes, so the buffer holds the
14-character prefix of the intended name (when the name fills all 14 bytes,
`strncpy` writes no terminator inside the buffer). -/
def resourceNameUsed (port : String) : String :=
  String.mk ((resourceNameFullChars port).take 14)

/-- `PowerSupply::open` (the method is named `open` in the source; that is a
Lean keyword).  The local `err` is initialised to
`ERR_DEVICE_NOT_CONNECTED` and never reassigned, so every `goto err_open`
path calls `close()` and returns that error; the third component is the
sequence of VISA resource acquisitions attempted. -/
def psOpen (s : PsState) (env : OpenEnv) (port : String) :
    PsError × PsState × List ViAction :=
  if port = "" ∨ port.length < 4 then
    (PsError.ERR_DEVICE_NOT_CONNECTED, close s, [])
  else if env.rmOk = false then
    (PsError.ERR_DEVICE_NOT_CONNECTED, close s, [ViAction.openDefaultRM])
  else
    let s1 := { s with defaultRM := env.rmHandle }
    let name := resourceNameUsed port
    if env.openOk = false then
      (PsError.ERR_DEVICE_NOT_CONNECTED, close s1,
        [ViAction.openDefaultRM, ViAction.openInstr name])
    else
      (PsError.ERR_SUCCESS,
        { s1 with instrument := env.instrHandle, port := port },
        [ViAction.openDefaultRM, ViAction.openInstr name])

/-- One normal-operation driver command, for the frame property: which
command runs and the data it carries. -/
inductive Cmd where
  | isOnCmd
  | setVoltageCmd (v : ℚ)
  | getVoltageCmd
  | getCurrentCmd (currentIn : ℚ)
  | turnOnCmd
  | turnOffCmd
deriving DecidableEq, Repr

/-- Running one driver command against a session.  The C++ method bodies of
these six operations assign only locals and their out-parameters; the
session fields `port`, `defaultRM`, `instrument` are read but never written,
which the embedding reflects by returning the session record unchanged
alongside the error and the transport-write trace. -/
def runCmd (c : Cmd) (s : PsState) (env : Env) : PsError × PsState × List String :=
  match c with
  | Cmd.isOnCmd => ((isOn s env).1, s, (isOn s env).2.2)
  | Cmd.setVoltageCmd v => ((setVoltage s env v).1, s, (setVoltage s env v).2)
  | Cmd.getVoltageCmd => ((getVoltage s env).1, s, (getVoltage s env).2.2)
  | Cmd.getCurrentCmd cin => ((getCurrent s env cin).1, s, (getCurrent s env cin).2.2)
  | Cmd.turnOnCmd => ((turnOn s env).1, s, (turnOn s env).2)
  | Cmd.turnOffCmd => ((turnOff s env).1, s, (turnOff s env).2)

/-- The `Worker` fields that drive the telemetry loop of
`GUI_MAIN_POWER_SUPPLY.cpp`: the previous and the latest current value, both
initialised to `0.0`. -/
structure WorkerState where
  oldCurrent : ℚ
  newCurrent : ℚ
deriving DecidableEq, Repr

/-- One cycle of `Worker::mainWork`: skip when the session is not open, call
`readCurrent(newCurrent)` (implemented by `getCurrent`), skip on failure,
and emit `currentChanged(newCurrent)` exactly when the sampled value differs
from `oldCurrent`, updating `oldCurrent` first.  The second component is the
list of notifications the cycle emits. -/
def pollCycle (ps : PsState) (env : Env) (w : WorkerState) : WorkerState × List ℚ :=
  if isOpen ps ≠ PsError.ERR_SUCCESS then (w, [])
  else
    let r := getCurrent ps env w.newCurrent
    let w2 := { w with newCurrent := r.2.1 }
    if r.1 ≠ PsError.ERR_SUCCESS then (w2, [])
    else if w2.newCurrent ≠ w2.oldCurrent then
      ({ w2 with oldCurrent := w2.newCurrent }, [w2.newCurrent])
    else (w2, [])

/-- Running the worker loop for one environment per cycle, concatenating the
emitted notifications in order. -/
def pollRun (ps : PsState) (envs : List Env) (w : WorkerState) : WorkerState × List ℚ :=
  match envs with
  | [] => (w, [])
  | e :: rest =>
      let c := pollCycle ps e w
      let r := pollRun ps rest c.1
      (r.1, c.2 ++ r.2)

/-- A live session fixture: both handles non-NULL. -/
def openSession : PsState := ⟨"COM4", 9600, 1, 1⟩

/-- A closed session fixture: both handles `VI_NULL`. -/
def closedSession : PsState := ⟨"", 9600, 0, 0⟩

/-- An exchange in which both transport calls succeed and the device answers
`r`. -/
def okEnv (r : String) : Env := ⟨true, true, r⟩

/-- The cycle environments of the telemetry scenario: six cycles, each with
a successful write and read, the device reporting
`1.0, 1.0, 2.0, 2.0, 2.0, 3.0`. -/
def c2Envs : List Env :=
  [okEnv "1.0", okEnv "1.0", okEnv "2.0", okEnv "2.0", okEnv "2.0", okEnv "3.0"]

theorem atof_two_point_five : atof "2.5" = 5 / 2 := by
  have h : atofParts ['2', '.', '5'] = (false, 2, 5, 1) := by decide
  simp [atof, atofChars, h]
  norm_num

end PowerSupply

namespace PowerSupply

/-- Claim C1 (code bug): for an open session whose read-current exchange
succeeds end to end (command written, response `"2.5"` read back), the call
reports `ERR_SUCCESS` but its out-parameter is `0`, not the parsed value
`5/2`: the `ps_err_getCurrent` label executes `current = 0.0;` on every
return path, clobbering the `atof` result. -/
theorem c1_getCurrent_success_clobbers_parsed_value :
    getCurrent openSession (okEnv "2.5") 0 = (PsError.ERR_SUCCESS, 0, ["\n"]) ∧
    atof "2.5" = 5 / 2 ∧ (5 / 2 : ℚ) ≠ 0 :=
  ⟨by decide, atof_two_point_five, by norm_num⟩

/-- Claim C2 (code bug): six poller cycles against an open session in which
every transport operation succeeds and the device reports
`1.0, 1.0, 2.0, 2.0, 2.0, 3.0` emit no change notification at all — not the
three notifications `1.0, 2.0, 3.0` — because `getCurrent` zeroes its
out-parameter on every path, so each sampled value arrives as `0.0`, equal
to the initial last-observed value. -/
theorem c2_poller_emits_no_notifications :
    (pollRun openSession c2Envs ⟨0, 0⟩).2 = [] ∧
    ([] : List ℚ) ≠ [1, 2, 3] :=
  ⟨by decide, by decide⟩

/-- Claim C3 (code bug): for an open session, `setVoltage 5` writes the
single line `" 5.000000\n"`, not `"VOLT 5.000000\n"`: the implementation
looks the mnemonic up under the key `"setVoltage"`, which is absent from
`psCommands` (the table pairs the `VOLT` syntax with the key
`"writeVoltage"`), and `std::map::operator[]` yields an empty string for
the missing key. -/
theorem c3_setVoltage_sends_blank_mnemonic :
    setVoltage openSession (okEnv "") 5 = (PsError.ERR_SUCCESS, [" 5.000000\n"]) ∧
    (" 5.000000\n" : String) ≠ "VOLT 5.000000\n" :=
  ⟨by decide, by decide⟩

/-- Claim C4 (code bug): `turnOn` and `turnOff` invoked on a closed session
perform no transport write but return `ERR_SUCCESS`, not
`ERR_DEVICE_NOT_CONNECTED`: their local `err` starts as `ERR_SUCCESS` and
the not-connected branch jumps to the return without assigning it. -/
theorem c4_turnOn_turnOff_closed_return_success :
    turnOn closedSession (okEnv "") = (PsError.ERR_SUCCESS, []) ∧
    turnOff closedSession (okEnv "") = (PsError.ERR_SUCCESS, []) ∧
    PsError.ERR_SUCCESS ≠ PsError.ERR_DEVICE_NOT_CONNECTED := by
  decide

/-- Claim C5: an empty or shorter-than-4-character port makes `open` fail
with `ERR_DEVICE_NOT_CONNECTED` without attempting any VISA resource
acquisition, and after any failed `open` the session is fully closed:
`isOpen` reports not connected, both handles are `VI_NULL`, and the port
string is empty. -/
theorem c5_failed_open_leaves_session_fully_closed
    (s : PsState) (env : OpenEnv) (p : String) :
    ((p = "" ∨ p.length < 4) →
      (psOpen s env p).1 = PsError.ERR_DEVICE_NOT_CONNECTED ∧
      (psOpen s env p).2.2 = []) ∧
    ((psOpen s env p).1 ≠ PsError.ERR_SUCCESS →
      isOpen (psOpen s env p).2.1 = PsError.ERR_DEVICE_NOT_CONNECTED ∧
      (psOpen s env p).2.1.instrument = 0 ∧
      (psOpen s env p).2.1.defaultRM = 0 ∧
      (psOpen s env p).2.1.port = "") := by
  constructor
  · intro h
    simp [psOpen, if_pos h]
  · intro h2
    by_cases hp : p = "" ∨ p.length < 4
    · simp only [psOpen, if_pos hp]
      simp [close, isOpen]
    · by_cases hrm : env.rmOk = false
      · simp only [psOpen, if_neg hp, if_pos hrm]
        simp [close, isOpen]
      · by_cases hop : env.openOk = false
        · simp only [psOpen, if_neg hp, if_neg hrm, if_pos hop]
          simp [close, isOpen]
        · simp only [psOpen, if_neg hp, if_neg hrm, if_neg hop] at h2
          exact absurd rfl h2

theorem c5_witness :
    ((psOpen openSession ⟨true, 7, true, 9⟩ "CO").1 =
        PsError.ERR_DEVICE_NOT_CONNECTED ∧
      (psOpen openSession ⟨true, 7, true, 9⟩ "CO").2.2 = []) ∧
    (isOpen (psOpen openSession ⟨true, 7, true, 9⟩ "CO").2.1 =
        PsError.ERR_DEVICE_NOT_CONNECTED ∧
      (psOpen openSession ⟨true, 7, true, 9⟩ "CO").2.1.instrument = 0 ∧
      (psOpen openSession ⟨true, 7, true, 9⟩ "CO").2.1.defaultRM = 0 ∧
      (psOpen openSession ⟨true, 7, true, 9⟩ "CO").2.1.port = "") :=
  ⟨(c5_failed_open_leaves_session_fully_closed openSession ⟨true, 7, true, 9⟩ "CO").1
      (by decide),
    (c5_failed_open_leaves_session_fully_closed openSession ⟨true, 7, true, 9⟩ "CO").2
      (by decide)⟩

/-- Claim C6: for an open session whose power-state exchange succeeds,
`isOn` parses the response by its first character: `'1'` gives
`ERR_SUCCESS` with state `true`, `'0'` gives `ERR_SUCCESS` with state
`false`, and any other leading character gives `ERR_OPERATION_FAILED` with
state `false`. -/
theorem c6_isOn_parses_leading_char (s : PsState) (env : Env)
    (hopen : isOpen s = PsError.ERR_SUCCESS)
    (hw : env.writeOk = true) (hr : env.readOk = true) :
    (firstRespChar env = '1' →
      (isOn s env).1 = PsError.ERR_SUCCESS ∧ (isOn s env).2.1 = true) ∧
    (firstRespChar env = '0' →
      (isOn s env).1 = PsError.ERR_SUCCESS ∧ (isOn s env).2.1 = false) ∧
    (firstRespChar env ≠ '1' → firstRespChar env ≠ '0' →
      (isOn s env).1 = PsError.ERR_OPERATION_FAILED ∧ (isOn s env).2.1 = false) := by
  simp only [isOn, sendCommand, psCommands, hopen, hw, hr]
  norm_num
  refine ⟨?_, ?_, ?_⟩
  · intro h1
    simp [h1]
  · intro h0
    by_cases h1 : firstRespChar env = '1'
    · rw [h1] at h0
      exact absurd h0 (by decide)
    · simp [h1, h0]
  · intro h1 h0
    simp [h1, h0]

theorem c6_witness :
    isOpen openSession = PsError.ERR_SUCCESS ∧
    ((isOn openSession (okEnv "1\n")).1 = PsError.ERR_SUCCESS ∧
      (isOn openSession (okEnv "1\n")).2.1 = true) :=
  ⟨by decide,
    (c6_isOn_parses_leading_char openSession (okEnv "1\n") (by decide) rfl rfl).1
      (by decide)⟩

/-- Claim C7: `close` is idempotent and total: after it, `isOpen` reports
not connected, both handles are `VI_NULL`, the port string is empty, and a
second `close` changes nothing. -/
theorem c7_close_idempotent_and_total (s : PsState) :
    isOpen (close s) = PsError.ERR_DEVICE_NOT_CONNECTED ∧
    (close s).instrument = 0 ∧
    (close s).defaultRM = 0 ∧
    (close s).port = "" ∧
    close (close s) = close s := by
  simp [close, isOpen]

/-- Claim C8: a driver command that fails during normal operation on an open
session leaves the session record — in particular the open/closed state and
the transport handle — unchanged: the command methods never write the
session fields. -/
theorem c8_failed_command_preserves_session (c : Cmd) (s : PsState) (env : Env)
    (hopen : isOpen s = PsError.ERR_SUCCESS)
    (hfail : (runCmd c s env).1 ≠ PsError.ERR_SUCCESS) :
    (runCmd c s env).2.1 = s ∧ isOpen (runCmd c s env).2.1 = PsError.ERR_SUCCESS := by
  cases c <;> exact ⟨rfl, hopen⟩

theorem c8_witness :
    isOpen openSession = PsError.ERR_SUCCESS ∧
    (runCmd Cmd.turnOffCmd openSession ⟨false, true, ""⟩).1 ≠ PsError.ERR_SUCCESS ∧
    ((runCmd Cmd.turnOffCmd openSession ⟨false, true, ""⟩).2.1 = openSession ∧
      isOpen (runCmd Cmd.turnOffCmd openSession ⟨false, true, ""⟩).2.1 =
        PsError.ERR_SUCCESS) :=
  ⟨by decide, by decide,
    c8_failed_command_preserves_session Cmd.turnOffCmd openSession ⟨false, true, ""⟩
      (by decide) (by decide)⟩

/-- Claim C9: whenever `isOn` returns a non-success error — device not
connected, write failure, read failure, or an unrecognised response — the
reported state is `false`, because `state` is assigned `false` before any
I/O and only the `'1'` success branch ever sets it to `true`. -/
theorem c9_isOn_failure_reports_off (s : PsState) (env : Env)
    (h : (isOn s env).1 ≠ PsError.ERR_SUCCESS) : (isOn s env).2.1 = false := by
  by_cases h1 : isOpen s ≠ PsError.ERR_SUCCESS
  · simp only [isOn, if_pos h1]
  · simp only [isOn, if_neg h1] at h ⊢
    by_cases h2 : (sendCommand env (psCommands "isOn") "").1 ≠ PsError.ERR_SUCCESS
    · simp only [if_pos h2]
    · simp only [if_neg h2] at h ⊢
      by_cases h3 : env.readOk = false
      · simp only [if_pos h3]
      · simp only [if_neg h3] at h ⊢
        by_cases h4 : firstRespChar env = '1'
        · simp only [if_pos h4] at h
          exact absurd rfl h
        · simp only [if_neg h4] at h ⊢
          by_cases h5 : firstRespChar env = '0'
          · simp only [if_pos h5]
          · simp only [if_neg h5]

theorem c9_witness :
    (isOn closedSession (okEnv "1")).1 ≠ PsError.ERR_SUCCESS ∧
    (isOn closedSession (okEnv "1")).2.1 = false :=
  ⟨by decide, c9_isOn_failure_reports_off closedSession (okEnv "1") (by decide)⟩

/-- Claim C10 counterexample: for the accepted port `"COM123"` (suffix
`"123"`, three characters), `open` hands `viOpen` the resource name
`"ASRL123::INSTR"`, which has 14 characters — the name actually used is not
capped at 13 characters as claimed. -/
theorem c10_counterexample_resource_name_has_14_chars :
    psOpen closedSession ⟨true, 7, true, 9⟩ "COM123" =
      (PsError.ERR_SUCCESS, ⟨"COM123", 9600, 7, 9⟩,
        [ViAction.openDefaultRM, ViAction.openInstr "ASRL123::INSTR"]) ∧
    ¬ (("ASRL123::INSTR" : String).length ≤ 13) := by
  decide

/-- Claim C10 (amended): for every accepted port (length at least 4), the
resource name `open` hands the transport is the at-most-14-character prefix
of `"ASRL" + p[3:] + "::INSTR"` — the 14-byte `strncpy` destination caps it
at 14 characters, with no terminator written when the name fills the buffer
— so any port whose suffix after the third character exceeds 3 characters
does not reach the transport with its full intended resource name. -/
theorem c10_amended_resource_name_capped_at_14 (p : String) (h4 : 4 ≤ p.length) :
    (resourceNameUsed p).length ≤ 14 ∧
    (6 < p.length → resourceNameUsed p ≠ resourceNameFull p) := by
  have hp : p.toList.length = p.length := rfl
  have hfull : (resourceNameFullChars p).length = p.length + 8 := by
    simp [resourceNameFullChars, hp]
    omega
  constructor
  · show ((resourceNameFullChars p).take 14).length ≤ 14
    rw [List.length_take]
    omega
  · intro h6 heq
    have hlen := congrArg String.length heq
    have hused : (resourceNameUsed p).length =
        min 14 (resourceNameFullChars p).length := by
      show ((resourceNameFullChars p).take 14).length = _
      exact List.length_take 14 _
    have hfull2 : (resourceNameFull p).length = (resourceNameFullChars p).length := rfl
    rw [hused, hfull2, hfull] at hlen
    omega

theorem c10_amended_witness :
    4 ≤ ("COM1234" : String).length ∧
    6 < ("COM1234" : String).length ∧
    resourceNameUsed "COM1234" ≠ resourceNameFull "COM1234" :=
  ⟨by decide, by decide,
    (c10_amended_resource_name_capped_at_14 "COM1234" (by decide)).2 (by decide)⟩

end PowerSupply
